import Mathlib

/-!
# Verification of the MCP sales-agent server (`src/server.ts`)

Shallow embedding of the session-managed MCP gateway: the session registry
and request router (`app.post("/mcp")`, `handleSessionRequest`), and the
`SaveMeeting` tool handler (zod validation, OpenAI drafting, subject/body
split, SendGrid email).

External effects (the OpenAI fetch, the SendGrid fetch) are modelled by
passing their outcome as an explicit parameter and recording whether the
outbound call was attempted.  The `StreamableHTTPServerTransport` from the
MCP SDK is not part of this repository; its session lifecycle (fresh id
generation on initialization, the `onsessioninitialized` callback, closure
on terminate) is modelled from the spec where noted.
-/

namespace SalesAgent

instance {ε α : Type} [DecidableEq ε] [DecidableEq α] : DecidableEq (Except ε α) :=
  fun a b =>
    match a, b with
    | Except.ok x, Except.ok y =>
      match decEq x y with
      | isTrue h => isTrue (by rw [h])
      | isFalse h => isFalse (by simp [h])
    | Except.error x, Except.error y =>
      match decEq x y with
      | isTrue h => isTrue (by rw [h])
      | isFalse h => isFalse (by simp [h])
    | Except.ok _, Except.error _ => isFalse (by simp)
    | Except.error _, Except.ok _ => isFalse (by simp)

/-! ## JavaScript string primitives

Models of the JS string operations used by the tool handler:
`String.prototype.trim`, `split(/\r?\n/)`, and the regex
`/^Subject:\s*(.*)$/i`. -/

/-- Characters matched by JavaScript `\s` (the set relevant to this code:
ASCII whitespace, NBSP, Unicode space separators, line separators, BOM). -/
def jsWhitespace (c : Char) : Bool :=
  c = ' ' || c = '\t' || c = '\n' || c = '\r' ||
  c.val = 0x0b || c.val = 0x0c || c.val = 0xa0 || c.val = 0x1680 ||
  (0x2000 ≤ c.val && c.val ≤ 0x200a) ||
  c.val = 0x2028 || c.val = 0x2029 || c.val = 0x202f || c.val = 0x205f ||
  c.val = 0x3000 || c.val = 0xfeff

/-- JavaScript line terminators (`.` in a regex does not match these, and
`$` without `/m` only matches before end of input). -/
def jsLineTerminator (c : Char) : Bool :=
  c = '\n' || c = '\r' || c.val = 0x2028 || c.val = 0x2029

/-- Model of JS `String.prototype.trim`: strip `\s` from both ends. -/
def jsTrim (s : String) : String :=
  String.mk (((s.toList.dropWhile jsWhitespace).reverse.dropWhile jsWhitespace).reverse)

/-- `split(/\r?\n/)` on a character list: a separator is `"\r\n"` or `"\n"`;
a lone `'\r'` is not a separator. -/
def splitLinesAux : List Char → List Char → List String
  | [], acc => [String.mk acc.reverse]
  | '\r' :: '\n' :: rest, acc => String.mk acc.reverse :: splitLinesAux rest []
  | '\n' :: rest, acc => String.mk acc.reverse :: splitLinesAux rest []
  | c :: rest, acc => splitLinesAux rest (c :: acc)

/-- Model of JS `email.split(/\r?\n/)`. -/
def splitLines (s : String) : List String :=
  splitLinesAux s.toList []

/-- Model of `firstLine.match(/^Subject:\s*(.*)$/i)`, returning capture 1.

The regex matches iff the line starts with case-insensitive `"Subject:"`
and, after the maximal run of `\s` following the colon, the remainder is
free of line terminators (`.` cannot match them and `$` is end-of-input);
the capture is that remainder. -/
def matchSubjectLine (line : String) : Option String :=
  if (line.toList.take 8).map Char.toLower = "subject:".toList then
    let rest := (line.toList.drop 8).dropWhile jsWhitespace
    if rest.any jsLineTerminator then none else some (String.mk rest)
  else none

/-! ## Configuration and external-call outcomes -/

/-- `const HARDCODED_TO_EMAIL = "akbargate@gmail.com";` -/
def HARDCODED_TO_EMAIL : String := "akbargate@gmail.com"

/-- The three environment variables read at startup:
`OPENAI_API_KEY`, `SENDGRID_API_KEY`, `SENDGRID_FROM_EMAIL`. -/
structure Config where
  openaiApiKey : Option String
  sendgridApiKey : Option String
  sendgridFrom : Option String
deriving Repr, DecidableEq

/-- Outcome of the single OpenAI chat completions fetch, were it performed:
either a 2xx response whose `choices[0].message.content` is the given field
(`none` when that path is absent in the JSON), or a non-2xx status (which
`requestOpenAIChat` turns into a thrown error). -/
inductive CompletionOutcome where
  | respOk (content : Option String)
  | respErr
deriving Repr, DecidableEq

/-- Arguments of the SendGrid fetch (`sendEmail`'s destructured parameter;
the TS fields `to` and `from` are `toEmail` and `fromAddr` here because
both are Lean tokens). -/
structure SendEmailArgs where
  toEmail : String
  fromAddr : String
  subject : String
  text : String
deriving Repr, DecidableEq

/-- `requestOpenAIChat`: if `OPENAI_API_KEY` is unset, warn and return `{}`
without fetching; otherwise fetch once and throw on a non-ok status.
Returns (whether the outbound fetch was performed, the result: the content
field of the parsed JSON, or the thrown error).  An empty `{}` result has
no `choices`, hence content `none`. -/
def requestOpenAIChat (cfg : Config) (comp : CompletionOutcome) :
    Bool × Except String (Option String) :=
  match cfg.openaiApiKey with
  | none => (false, Except.ok none)
  | some _ =>
    match comp with
    | .respOk content => (true, Except.ok content)
    | .respErr => (true, Except.error "OpenAI chat request failed")

/-- `draftStakeholderEmailFromJson`: call `requestOpenAIChat` once; take
`String(data.choices[0].message.content).trim()` when the content path is
present, `""` otherwise; any thrown error is caught and yields `""`.
Returns (whether the outbound fetch was performed, the drafted email). -/
def draftStakeholderEmailFromJson (cfg : Config) (comp : CompletionOutcome) :
    Bool × String :=
  let r := requestOpenAIChat cfg comp
  match r.2 with
  | Except.ok (some content) => (r.1, jsTrim content)
  | Except.ok none => (r.1, "")
  | Except.error _ => (r.1, "")

/-- `sendEmail`: if `SENDGRID_API_KEY` or `SENDGRID_FROM_EMAIL` is unset,
warn and return without fetching; otherwise fetch once, throwing on a
non-ok status.  Returns (whether the outbound fetch was performed, unit or
the thrown error); `emailFails` is the outcome of the fetch were it
performed. -/
def sendEmail (cfg : Config) (emailFails : Bool) :
    Bool × Except String Unit :=
  if cfg.sendgridApiKey.isNone || cfg.sendgridFrom.isNone then
    (false, Except.ok ())
  else
    (true, if emailFails then Except.error "SendGrid request failed" else Except.ok ())

/-! ## The `SaveMeetingInputSchema` zod schema -/

/-- A raw contact record (fields may be absent). -/
structure RawContact where
  name : Option String
  role : Option String
deriving Repr, DecidableEq

/-- The raw tool payload before validation: every schema field, absent or
present.  (Type mismatches — a number where a string is expected — are not
modelled; presence/absence and emptiness are, which is what the schema's
required/`min(1)` checks inspect.) -/
structure RawPayload where
  company : Option String
  contacts : Option (List RawContact)
  companyProductsOrServices : Option String
  rolesHiring : Option (List String)
  budget : Option String
  problemsOrPainPoints : Option (List String)
  objections : Option (List String)
  competition : Option (List String)
  promises : Option (List String)
  timeline : Option String
  toneOrSentiment : Option String
  keyQuotes : Option (List String)
  nextSteps : Option (List String)
  summary : Option String
  repName : Option String
deriving Repr, DecidableEq

/-- A zod issue: (path, message). -/
abbrev Issue := String × String

/-- Check of a required `z.string().min(1, msg)` field: a missing key is an
`invalid_type` issue with message `"Required"`; an empty string fails the
`min(1)` check with the custom message. -/
def checkRequiredString (path : String) (msg : String) : Option String → List Issue
  | none => [(path, "Required")]
  | some s => if s.length = 0 then [(path, msg)] else []

/-- Check of the elements of an optional `z.array(z.string().min(1))`. -/
def checkMinOneList (path : String) : Option (List String) → List Issue
  | none => []
  | some l =>
    (l.enum.filter (fun p => p.2.length = 0)).map
      (fun p => (path ++ "." ++ toString p.1, "String must contain at least 1 character(s)"))

/-- Check of one element of the optional `contacts` array. -/
def checkContact (idx : Nat) (c : RawContact) : List Issue :=
  checkRequiredString ("contacts." ++ toString idx ++ ".name") "contact name is required" c.name

/-- All issues of `SaveMeetingInputSchema.safeParse`, in schema field
order. -/
def validateSaveMeeting (raw : RawPayload) : List Issue :=
  checkRequiredString "company" "company is required" raw.company ++
  (match raw.contacts with
   | none => []
   | some cs => (cs.enum.map (fun p => checkContact p.1 p.2)).flatten) ++
  checkMinOneList "rolesHiring" raw.rolesHiring ++
  checkMinOneList "problemsOrPainPoints" raw.problemsOrPainPoints ++
  checkMinOneList "objections" raw.objections ++
  checkMinOneList "competition" raw.competition ++
  checkMinOneList "promises" raw.promises ++
  checkMinOneList "keyQuotes" raw.keyQuotes ++
  checkMinOneList "nextSteps" raw.nextSteps ++
  checkRequiredString "summary" "summary is required" raw.summary ++
  checkRequiredString "repName" "repName is required" raw.repName

/-- `SaveMeetingInputSchema.parse(rawInput)`: throws a `ZodError` carrying
every issue when any check fails, otherwise returns the payload (whose
required fields are now known present). -/
def parseSaveMeeting (raw : RawPayload) : Except (List Issue) RawPayload :=
  match validateSaveMeeting raw with
  | [] => Except.ok raw
  | issues => Except.error issues

/-! ## The subject/body split inside the `SaveMeeting` callback -/

/-- Lines 219–234 of the callback: start from `subject = ""`,
`body = email || ""`; if the draft is non-empty, split it on `/\r?\n/` and
match the first line against `/^Subject:\s*(.*)$/i`, taking the trimmed
capture as subject and the trimmed join of the remaining lines as body;
finally, if the subject is still falsy, default it to
`` `Sales meeting recap: ${input.company}` ``. -/
def computeSubjectBody (email : String) (company : String) : String × String :=
  let p :=
    if email ≠ "" then
      let lines := splitLines email
      let firstLine := lines.headD ""
      match matchSubjectLine firstLine with
      | some cap => (jsTrim cap, jsTrim (String.intercalate "\n" lines.tail))
      | none => ("", email)
    else ("", email)
  if p.1 = "" then ("Sales meeting recap: " ++ company, p.2) else p

/-! ## The whole `SaveMeeting` tool callback -/

/-- Observable outcome of one `SaveMeeting` invocation:
whether the outbound OpenAI fetch was performed, the arguments of the
SendGrid fetch when it was performed, whether a SendGrid failure was
caught and logged, and the result (the `ZodError` issues when `parse`
threw — that throw happens before the callback's `try` block and escapes
to the SDK — or the text of the returned `content`). -/
structure ToolRun where
  completionRequested : Bool
  emailFetch : Option SendEmailArgs
  emailErrorLogged : Bool
  result : Except (List Issue) String
deriving Repr, DecidableEq

/-- Lines 210–276: the `SaveMeeting` callback.  `comp` is the outcome the
OpenAI endpoint would give, `emailFails` the outcome the SendGrid endpoint
would give. -/
def saveMeetingTool (cfg : Config) (raw : RawPayload) (comp : CompletionOutcome)
    (emailFails : Bool) : ToolRun :=
  match parseSaveMeeting raw with
  | Except.error issues =>
    { completionRequested := false, emailFetch := none,
      emailErrorLogged := false, result := Except.error issues }
  | Except.ok input =>
    let d := draftStakeholderEmailFromJson cfg comp
    let email := d.2
    let sb := computeSubjectBody email (input.company.getD "")
    let emailText := if sb.2 = "" then "saved" else sb.2
    match cfg.sendgridFrom with
    | some fromAddr =>
      let send := sendEmail cfg emailFails
      { completionRequested := d.1,
        emailFetch :=
          if send.1 then
            some { toEmail := HARDCODED_TO_EMAIL, fromAddr := fromAddr,
                   subject := sb.1, text := emailText }
          else none,
        emailErrorLogged := (match send.2 with | Except.error _ => true | Except.ok _ => false),
        result := Except.ok (if email = "" then "saved" else email) }
    | none =>
      { completionRequested := d.1, emailFetch := none,
        emailErrorLogged := false,
        result := Except.ok (if email = "" then "saved" else email) }

/-! ## The session registry and request router

`const transports: { [sessionId: string]: StreamableHTTPServerTransport } = {}`
is the session registry; the `POST /mcp` handler creates/continues sessions
and `handleSessionRequest` serves `GET /mcp` (poll) and `DELETE /mcp`
(terminate).

Session identifiers (`randomUUID()` values) are modelled as naturals drawn
from a counter: the spec's contract for the generator is "a fresh unique
opaque token per call", and a strictly increasing counter realises it.
Transport instances are identified by a second counter. -/

/-- A session-identifying header value.  JavaScript truthiness makes the
router treat an *empty* header value (`mcp-session-id:` sent with no
value, which Node delivers as `""`) differently from a nonempty unknown
one, so the model distinguishes absent, empty, and a token. -/
inductive HeaderVal where
  | absent
  | empty
  | tok (sid : Nat)
deriving Repr, DecidableEq

/-- `sessionId && ...`: the header is truthy iff present and nonempty. -/
def HeaderVal.truthy : HeaderVal → Bool
  | .tok _ => true
  | _ => false

/-- The token carried by a truthy header. -/
def HeaderVal.sid : HeaderVal → Option Nat
  | .tok s => some s
  | _ => none

/-- The registry: an association list from session identifier to transport
instance identifier (insertion at the front; JS object keys are unique). -/
abbrev Registry := List (Nat × Nat)

/-- `transports[sid]` (reading). -/
def rlookup : Registry → Nat → Option Nat
  | [], _ => none
  | (k, v) :: rest, sid => if k = sid then some v else rlookup rest sid

/-- `delete transports[sid]`. -/
def rremove (r : Registry) (sid : Nat) : Registry :=
  r.filter (fun p => p.1 ≠ sid)

/-- `transports[sid] = t`. -/
def rregister (r : Registry) (sid t : Nat) : Registry :=
  (sid, t) :: r

/-- Server state: the registry plus the two freshness counters (the
session-id counter models `randomUUID`'s fresh-unique-token contract; the
transport counter names `new StreamableHTTPServerTransport` instances). -/
structure ServerState where
  registry : Registry
  nextSession : Nat
  nextTransport : Nat
deriving Repr, DecidableEq

/-- The three verbs on `/mcp`: `POST` (create-or-continue), `GET` (poll),
`DELETE` (terminate). -/
inductive Verb where
  | post
  | get
  | delete
deriving Repr, DecidableEq

/-- One inbound HTTP request, together with the environment's resolution of
the non-deterministic parts of handling it: whether
`transport.handleRequest` (or `server.connect`) throws, and whether
handling makes the transport signal closure (an explicit terminate, a
client disconnect, or a protocol error). -/
structure Request where
  verb : Verb
  header : HeaderVal
  isInit : Bool
  delegateThrows : Bool
  closesSession : Bool
deriving Repr, DecidableEq

/-- Responses the two handlers can produce. -/
inductive Response where
  /-- Whatever an existing transport wrote for a delegated request. -/
  | delegated
  /-- Modelled from the spec: the `StreamableHTTPServerTransport`'s reply
  to an initialization request, carrying the newly minted session
  identifier in the `mcp-session-id` response header. -/
  | initialized (sid : Nat)
  /-- `res.status(status).json({ jsonrpc, error: { code, ... }, id })`. -/
  | jsonError (status : Nat) (code : Int)
  /-- `res.status(status).send(message)`. -/
  | plainError (status : Nat) (message : String)
deriving Repr, DecidableEq

/-- `app.post("/mcp", ...)` (lines 175–305).

The init branch is modelled from the spec where the SDK transport's
behaviour decides it: handling an initialization request makes the
transport call `sessionIdGenerator` once for a fresh token, invoke
`onsessioninitialized` with it (which registers the transport), and reply
with the token in the response header.  If the transport closes at once,
`transport.onclose` deletes its entry.  A thrown error anywhere in the
`try` is caught and answered with `500`/`-32001`; the transport then never
completed initialization, so no registration survives. -/
def mcpPost (st : ServerState) (req : Request) : Response × ServerState :=
  if req.header.truthy ∧ (rlookup st.registry (req.header.sid.getD 0)).isSome then
    -- `if (sessionId && transports[sessionId])`: delegate to the transport
    if req.delegateThrows then
      (Response.jsonError 500 (-32001), st)
    else if req.closesSession then
      (Response.delegated,
        { st with registry := rremove st.registry (req.header.sid.getD 0) })
    else
      (Response.delegated, st)
  else if !req.header.truthy ∧ req.isInit then
    -- `else if (!sessionId && isInitializeRequest(req.body))`: new transport
    if req.delegateThrows then
      (Response.jsonError 500 (-32001), st)
    else
      let sid := st.nextSession
      let t := st.nextTransport
      let reg := rregister st.registry sid t
      (Response.initialized sid,
        { registry := if req.closesSession then rremove reg sid else reg,
          nextSession := st.nextSession + 1,
          nextTransport := st.nextTransport + 1 })
  else
    -- `else`: 400 with the JSON-RPC "no valid session" envelope
    (Response.jsonError 400 (-32000), st)

/-- `handleSessionRequest` (lines 307–326), serving `GET /mcp` and
`DELETE /mcp`.  A `DELETE` that reaches the transport closes the session
(spec: "TERMINATE: ... closes the session"), firing `transport.onclose`,
which removes the registry entry. -/
def handleSessionRequest (st : ServerState) (req : Request) : Response × ServerState :=
  if req.header.truthy ∧ (rlookup st.registry (req.header.sid.getD 0)).isSome then
    if req.delegateThrows then
      (Response.plainError 500 "Internal Server Error", st)
    else if req.closesSession then
      (Response.delegated,
        { st with registry := rremove st.registry (req.header.sid.getD 0) })
    else
      (Response.delegated, st)
  else
    -- `if (!sessionId || !transports[sessionId])`
    (Response.plainError 400 "Invalid or missing session ID", st)

/-- Routing by verb: `app.post` / `app.get` / `app.delete` on `/mcp`. -/
def step (st : ServerState) (req : Request) : Response × ServerState :=
  match req.verb with
  | .post => mcpPost st req
  | .get => handleSessionRequest st req
  | .delete => handleSessionRequest st req

/-- A run of the server over a request trace. -/
def run (st : ServerState) : List Request → ServerState
  | [] => st
  | req :: reqs => run (step st req).2 reqs

/-- The server state at process start: empty registry. -/
def initialState : ServerState :=
  { registry := [], nextSession := 0, nextTransport := 0 }

/-- The TERMINATE request for a session token: `DELETE /mcp` with the
`mcp-session-id` header, delegation succeeding and closing the
transport. -/
def terminateReq (sid : Nat) : Request :=
  { verb := .delete, header := .tok sid, isInit := false,
    delegateThrows := false, closesSession := true }

/-- The registry invariant: keys are duplicate-free and every key was
produced by an earlier call of the session-id generator (is below the
counter). -/
def Inv (st : ServerState) : Prop :=
  (st.registry.map Prod.fst).Nodup ∧ ∀ p ∈ st.registry, p.1 < st.nextSession

/-- Whether handling the request reaches delegation (a `try` block whose
body touches the transport): on any verb, a truthy header that resolves;
on `POST` additionally the new-transport branch (falsy header, init
body). -/
def delegationReached (st : ServerState) (req : Request) : Bool :=
  (req.header.truthy && (rlookup st.registry (req.header.sid.getD 0)).isSome) ||
  (match req.verb with
   | Verb.post => !req.header.truthy && req.isInit
   | _ => false)

/-- Fixture: a server state holding one session (token 0, transport 0). -/
def demoState : ServerState :=
  { registry := [(0, 0)], nextSession := 1, nextTransport := 1 }

/-- Fixture: an initialization `POST` with no session header. -/
def demoInitReq : Request :=
  { verb := Verb.post, header := HeaderVal.absent, isInit := true,
    delegateThrows := false, closesSession := false }

/-- Fixture: an initialization `POST` whose `mcp-session-id` header is sent
with an empty value. -/
def demoEmptyHeaderInitReq : Request :=
  { verb := Verb.post, header := HeaderVal.empty, isInit := true,
    delegateThrows := false, closesSession := false }

/-- Fixture: a `POST` carrying the unknown session token `5`. -/
def demoUnknownTokReq : Request :=
  { verb := Verb.post, header := HeaderVal.tok 5, isInit := true,
    delegateThrows := false, closesSession := false }

/-- Fixture: an initialization `POST` whose delegation throws. -/
def demoThrowingInitReq : Request :=
  { verb := Verb.post, header := HeaderVal.absent, isInit := true,
    delegateThrows := true, closesSession := false }

/-- Fixture: a schema-conformant tool payload. -/
def demoPayload : RawPayload :=
  { company := some "Acme", contacts := none, companyProductsOrServices := none,
    rolesHiring := none, budget := none, problemsOrPainPoints := none,
    objections := none, competition := none, promises := none, timeline := none,
    toneOrSentiment := none, keyQuotes := none, nextSteps := none,
    summary := some "Discussed pricing", repName := some "Jordan" }

/-- Fixture: the same payload with the mandatory `summary` field absent. -/
def demoPayloadNoSummary : RawPayload :=
  { demoPayload with summary := none }

/-- Fixture: all three credentials configured. -/
def demoCfg : Config :=
  { openaiApiKey := some "sk-demo", sendgridApiKey := some "sg-demo",
    sendgridFrom := some "rep@acme.example" }

/-- Fixture: no credential configured. -/
def demoCfgUnset : Config :=
  { openaiApiKey := none, sendgridApiKey := none, sendgridFrom := none }

/-- Fixture: sender configured but the SendGrid credential unset. -/
def demoCfgNoKey : Config :=
  { openaiApiKey := some "sk-demo", sendgridApiKey := none,
    sendgridFrom := some "rep@acme.example" }

/-- Fixture: a completion with a `Subject:` line and a body. -/
def demoComp : CompletionOutcome :=
  CompletionOutcome.respOk (some "Subject: Hi\nBody")

/-- Fixture: a completion that is only a `Subject:` line (empty body). -/
def demoCompSubjectOnly : CompletionOutcome :=
  CompletionOutcome.respOk (some "Subject: Hi")

/-! ## Registry lemmas -/

theorem rlookup_rremove_self (r : Registry) (sid : Nat) :
    rlookup (rremove r sid) sid = none := by
  induction r with
  | nil => rfl
  | cons p rest ih =>
    by_cases h : p.1 = sid
    · simpa [rremove, h] using ih
    · simpa [rremove, rlookup, h] using ih

theorem rlookup_rremove_of_none (r : Registry) (k sid : Nat)
    (h : rlookup r sid = none) : rlookup (rremove r k) sid = none := by
  induction r with
  | nil => rfl
  | cons p rest ih =>
    simp only [rlookup] at h
    by_cases hp : p.1 = sid
    · simp [hp] at h
    · simp only [rlookup, hp, if_false] at h
      by_cases hk : p.1 = k
      · simpa [rremove, hk] using ih h
      · simpa [rremove, rlookup, hk, hp] using ih h

theorem rlookup_none_of_forall_lt (r : Registry) (n : Nat)
    (h : ∀ p ∈ r, p.1 < n) : rlookup r n = none := by
  induction r with
  | nil => rfl
  | cons p rest ih =>
    have hp := h p (by simp)
    have hne : p.1 ≠ n := Nat.ne_of_lt hp
    simp only [rlookup, hne, if_false]
    exact ih (fun q hq => h q (by simp [hq]))

theorem rlookup_mem (r : Registry) (sid t : Nat)
    (h : rlookup r sid = some t) : (sid, t) ∈ r := by
  induction r with
  | nil => simp [rlookup] at h
  | cons p rest ih =>
    cases p with
    | mk a b =>
      simp only [rlookup] at h
      by_cases hp : a = sid
      · subst hp
        simp only [if_pos rfl] at h
        obtain rfl := Option.some.inj h
        exact List.mem_cons_self _ _
      · simp only [hp, if_false] at h
        exact List.mem_cons_of_mem _ (ih h)

theorem rremove_keys_sublist (r : Registry) (sid : Nat) :
    ((rremove r sid).map Prod.fst).Sublist (r.map Prod.fst) :=
  (List.filter_sublist r).map Prod.fst

theorem rremove_mem (r : Registry) (sid : Nat) (p : Nat × Nat)
    (h : p ∈ rremove r sid) : p ∈ r :=
  List.mem_of_mem_filter h

/-! ## Invariant preservation and monotonicity of the step relation -/

theorem step_state_cases (st : ServerState) (req : Request) :
    (step st req).2 = st ∨
    (step st req).2 = { st with registry := rremove st.registry (req.header.sid.getD 0) } ∨
    (step st req).2 =
      { registry := rregister st.registry st.nextSession st.nextTransport,
        nextSession := st.nextSession + 1,
        nextTransport := st.nextTransport + 1 } ∨
    (step st req).2 =
      { registry := rremove (rregister st.registry st.nextSession st.nextTransport) st.nextSession,
        nextSession := st.nextSession + 1,
        nextTransport := st.nextTransport + 1 } := by
  cases req with
  | mk verb header isInit dthrows closes =>
    cases verb <;>
      simp only [step, mcpPost, handleSessionRequest] <;>
      split_ifs <;> simp

theorem Inv_rremove (st : ServerState) (k : Nat) (hinv : Inv st) :
    Inv { st with registry := rremove st.registry k } := by
  exact ⟨hinv.1.sublist (rremove_keys_sublist _ _),
    fun p hp => hinv.2 p (rremove_mem _ _ p hp)⟩

theorem Inv_rregister_fresh (st : ServerState) (hinv : Inv st) :
    Inv { registry := rregister st.registry st.nextSession st.nextTransport,
          nextSession := st.nextSession + 1,
          nextTransport := st.nextTransport + 1 } := by
  obtain ⟨hnd, hlt⟩ := hinv
  constructor
  · simp only [rregister, List.map_cons, List.nodup_cons]
    refine ⟨fun hmem => ?_, hnd⟩
    obtain ⟨p, hp, hfst⟩ := List.mem_map.mp hmem
    exact absurd (hfst ▸ hlt p hp) (lt_irrefl _)
  · intro p hp
    rcases List.mem_cons.mp hp with hp | hp
    · simp [hp]
    · exact Nat.lt_succ_of_lt (hlt p hp)

theorem Inv_step (st : ServerState) (req : Request) (hinv : Inv st) :
    Inv (step st req).2 := by
  rcases step_state_cases st req with h | h | h | h <;> rw [h]
  · exact hinv
  · exact Inv_rremove st _ hinv
  · exact Inv_rregister_fresh st hinv
  · exact Inv_rremove _ st.nextSession (Inv_rregister_fresh st hinv)

theorem Inv_run (st : ServerState) (reqs : List Request) (hinv : Inv st) :
    Inv (run st reqs) := by
  induction reqs generalizing st with
  | nil => exact hinv
  | cons req rest ih => exact ih _ (Inv_step st req hinv)

theorem closed_step (st : ServerState) (req : Request) (sid : Nat)
    (hlt : sid < st.nextSession) (hnone : rlookup st.registry sid = none) :
    sid < ((step st req).2).nextSession ∧
    rlookup ((step st req).2).registry sid = none := by
  have hreg : rlookup (rregister st.registry st.nextSession st.nextTransport) sid = none := by
    simp only [rregister, rlookup, Nat.ne_of_gt hlt, if_false]
    exact hnone
  rcases step_state_cases st req with h | h | h | h <;> rw [h]
  · exact ⟨hlt, hnone⟩
  · exact ⟨hlt, rlookup_rremove_of_none _ _ _ hnone⟩
  · exact ⟨Nat.lt_succ_of_lt hlt, hreg⟩
  · exact ⟨Nat.lt_succ_of_lt hlt, rlookup_rremove_of_none _ _ _ hreg⟩

theorem closed_run (st : ServerState) (reqs : List Request) (sid : Nat)
    (hlt : sid < st.nextSession) (hnone : rlookup st.registry sid = none) :
    rlookup (run st reqs).registry sid = none := by
  induction reqs generalizing st with
  | nil => exact hnone
  | cons req rest ih =>
    obtain ⟨hlt', hnone'⟩ := closed_step st req sid hlt hnone
    exact ih _ hlt' hnone'

/-! ## Claim theorems: session lifecycle (C1–C4) -/

/-- **C1.** A `CREATE_OR_CONTINUE` request with no session header whose body
is an initialization message makes the router construct a new transport and
register it — through the `onsessioninitialized` callback — under a freshly
generated, previously-unused session identifier, which the response
carries; looking that identifier up in the registry afterwards yields that
same transport. -/
theorem init_request_registers_fresh_session (st : ServerState) (req : Request)
    (hinv : Inv st)
    (hverb : req.verb = Verb.post) (hheader : req.header = HeaderVal.absent)
    (hinit : req.isInit = true) (hthrow : req.delegateThrows = false)
    (hclose : req.closesSession = false) :
    (step st req).1 = Response.initialized st.nextSession ∧
    rlookup st.registry st.nextSession = none ∧
    rlookup ((step st req).2).registry st.nextSession = some st.nextTransport := by
  obtain ⟨verb, header, isInit, dthrows, closes⟩ := req
  simp only at hverb hheader hinit hthrow hclose
  subst hverb hheader hinit hthrow hclose
  refine ⟨?_, rlookup_none_of_forall_lt _ _ hinv.2, ?_⟩ <;>
    simp [step, mcpPost, HeaderVal.truthy, HeaderVal.sid, rregister, rlookup]

/-- Witness for C1 at the start state. -/
theorem init_request_registers_fresh_session_witness :
    (step initialState demoInitReq).1 = Response.initialized 0 ∧
    rlookup initialState.registry 0 = none ∧
    rlookup ((step initialState demoInitReq).2).registry 0 = some 0 :=
  init_request_registers_fresh_session initialState demoInitReq
    ⟨by decide, by decide⟩ rfl rfl rfl rfl rfl

/-- **C2.** Once a session's transport signals closure (here: an explicit
TERMINATE), `transport.onclose` removes its registry entry, so the
identifier no longer resolves; a second TERMINATE of the same identifier is
answered with the plain invalid-session client error and changes nothing;
along every later request trace the identifier stays unresolvable (a closed
identifier is never re-registered, because the generator only issues fresh
tokens); and along every trace from an invariant-satisfying state the
registry keys stay duplicate-free. -/
theorem terminate_removes_session_and_is_idempotent (st : ServerState) (sid t : Nat)
    (hinv : Inv st) (hreg : rlookup st.registry sid = some t) :
    rlookup ((step st (terminateReq sid)).2).registry sid = none ∧
    step ((step st (terminateReq sid)).2) (terminateReq sid) =
      (Response.plainError 400 "Invalid or missing session ID",
        (step st (terminateReq sid)).2) ∧
    (∀ reqs, rlookup (run ((step st (terminateReq sid)).2) reqs).registry sid = none) ∧
    (∀ reqs, ((run st reqs).registry.map Prod.fst).Nodup) := by
  have hstep : step st (terminateReq sid) =
      (Response.delegated, { st with registry := rremove st.registry sid }) := by
    simp [step, terminateReq, handleSessionRequest, HeaderVal.truthy, HeaderVal.sid, hreg]
  have hlt : sid < st.nextSession := hinv.2 _ (rlookup_mem _ _ _ hreg)
  have hst2 : (step st (terminateReq sid)).2 =
      { st with registry := rremove st.registry sid } := by
    rw [hstep]
  have hnone : rlookup ((step st (terminateReq sid)).2).registry sid = none := by
    rw [hst2]
    exact rlookup_rremove_self _ _
  refine ⟨hnone, ?_, ?_, ?_⟩
  · rw [hst2]
    simp [step, terminateReq, handleSessionRequest, HeaderVal.truthy, HeaderVal.sid,
      rlookup_rremove_self]
  · intro reqs
    refine closed_run _ _ _ ?_ hnone
    rw [hst2]
    exact hlt
  · intro reqs
    exact (Inv_run st reqs hinv).1

/-- Witness for C2 at a one-session state. -/
theorem terminate_removes_session_and_is_idempotent_witness :
    rlookup ((step demoState (terminateReq 0)).2).registry 0 = none ∧
    step ((step demoState (terminateReq 0)).2) (terminateReq 0) =
      (Response.plainError 400 "Invalid or missing session ID",
        (step demoState (terminateReq 0)).2) ∧
    (∀ reqs, rlookup (run ((step demoState (terminateReq 0)).2) reqs).registry 0 = none) ∧
    (∀ reqs, ((run demoState reqs).registry.map Prod.fst).Nodup) :=
  terminate_removes_session_and_is_idempotent demoState 0 0
    ⟨by decide, by decide⟩ (by decide)

/-- **C3 (counterexample).** The claim fails for an *empty-valued*
`mcp-session-id` header: `""` is carried by the request and is not a
registry key, yet a `POST` whose body is an initialization message is not
rejected — JavaScript truthiness (`!sessionId`) treats the empty value as
absent, so the router creates and registers a brand-new session instead of
answering the `-32000` client error, mutating the registry. -/
theorem empty_header_init_creates_session :
    (step initialState demoEmptyHeaderInitReq).1 = Response.initialized 0 ∧
    (step initialState demoEmptyHeaderInitReq).1 ≠ Response.jsonError 400 (-32000) ∧
    ((step initialState demoEmptyHeaderInitReq).2).registry = [(0, 0)] ∧
    ((step initialState demoEmptyHeaderInitReq).2).registry ≠ initialState.registry := by
  decide

/-- **C3 (amended).** For every request carrying a *nonempty*
session-identifying header value that is not a registry key, the response
is the invalid-session client error (`400` with JSON-RPC code `-32000` on
`CREATE_OR_CONTINUE`; plain `400` on POLL and TERMINATE) and the server
state — in particular the registry — is left completely unchanged. -/
theorem unknown_session_header_rejected (st : ServerState) (req : Request) (sid : Nat)
    (hheader : req.header = HeaderVal.tok sid)
    (hnone : rlookup st.registry sid = none) :
    (step st req).2 = st ∧
    (req.verb = Verb.post → (step st req).1 = Response.jsonError 400 (-32000)) ∧
    (req.verb ≠ Verb.post →
      (step st req).1 = Response.plainError 400 "Invalid or missing session ID") := by
  obtain ⟨verb, header, isInit, dthrows, closes⟩ := req
  simp only at hheader
  subst hheader
  cases verb <;>
    simp [step, mcpPost, handleSessionRequest, HeaderVal.truthy, HeaderVal.sid, hnone]

/-- Witness for the amended C3 at an unknown token. -/
theorem unknown_session_header_rejected_witness :
    (step initialState demoUnknownTokReq).2 = initialState ∧
    (demoUnknownTokReq.verb = Verb.post →
      (step initialState demoUnknownTokReq).1 = Response.jsonError 400 (-32000)) ∧
    (demoUnknownTokReq.verb ≠ Verb.post →
      (step initialState demoUnknownTokReq).1 =
        Response.plainError 400 "Invalid or missing session ID") :=
  unknown_session_header_rejected initialState demoUnknownTokReq 5 rfl (by decide)

/-- **C4.** When delegation is reached and `transport.handleRequest` (or
`server.connect`) throws, the router's `try/catch` converts the exception
into a server error response — the `500` JSON-RPC envelope with code
`-32001` on `CREATE_OR_CONTINUE`, a plain `500` on POLL and TERMINATE — so
no request's failure escapes the handler. -/
theorem delegation_exception_converted_to_server_error (st : ServerState) (req : Request)
    (hthrow : req.delegateThrows = true)
    (hreach : delegationReached st req = true) :
    (step st req).1 =
      (match req.verb with
       | Verb.post => Response.jsonError 500 (-32001)
       | Verb.get => Response.plainError 500 "Internal Server Error"
       | Verb.delete => Response.plainError 500 "Internal Server Error") := by
  obtain ⟨verb, header, isInit, dthrows, closes⟩ := req
  simp only at hthrow
  subst hthrow
  cases verb <;>
    simp only [delegationReached, Bool.or_eq_true, Bool.and_eq_true, Bool.false_eq_true,
      or_false] at hreach
  · rcases hreach with ⟨h1, h2⟩ | ⟨h1, h2⟩
    · simp [step, mcpPost, h1, h2]
    · have h1' : HeaderVal.truthy header = false := by
        revert h1
        cases HeaderVal.truthy header <;> simp
      simp [step, mcpPost, h1', h2]
  · obtain ⟨h1, h2⟩ := hreach
    simp [step, handleSessionRequest, h1, h2]
  · obtain ⟨h1, h2⟩ := hreach
    simp [step, handleSessionRequest, h1, h2]

/-- Witness for C4: a throwing initialization `POST`. -/
theorem delegation_exception_converted_to_server_error_witness :
    (step initialState demoThrowingInitReq).1 = Response.jsonError 500 (-32001) :=
  delegation_exception_converted_to_server_error initialState demoThrowingInitReq
    rfl rfl

/-! ## Claim theorems: the `SaveMeeting` tool handler (C5–C10) -/

/-- **C5 (counterexample).** The claim fails when the first line matches the
`Subject:` prefix but its remainder trims to the empty string: for the
draft `"Subject:\nBody text here"` the regex matches with capture `""`,
yet the handler does not use that trimmed remainder (the empty string) as
the subject — the `if (!subject)` fallback replaces it with the default
`"Sales meeting recap: " + company`. -/
theorem subject_line_empty_remainder_counterexample :
    matchSubjectLine ((splitLines "Subject:\nBody text here").headD "") = some "" ∧
    (computeSubjectBody "Subject:\nBody text here" "Acme").1 = "Sales meeting recap: Acme" ∧
    (computeSubjectBody "Subject:\nBody text here" "Acme").1 ≠ jsTrim "" := by
  refine ⟨rfl, rfl, ?_⟩
  decide

/-- **C5 (amended).** When the draft's first line matches the leading
`Subject:` prefix (case-insensitive, optional whitespace after the colon)
and the captured remainder trims to a nonempty string, that trimmed
remainder is the subject and the remaining lines, joined and trimmed, are
the body; when the first line matches but the remainder trims to empty,
the subject falls back to `"Sales meeting recap: " + company` while the
body is still the remaining lines, joined and trimmed; when no such
leading line exists, the subject is the fallback and the body is the full
draft unchanged.  In particular `"Subject: Q3 Recap\nBody text here"`
yields subject `"Q3 Recap"` and body `"Body text here"`. -/
theorem subject_body_split_characterization (email company : String) :
    computeSubjectBody email company =
      (match matchSubjectLine ((splitLines email).headD "") with
       | some cap =>
         ((if jsTrim cap = "" then "Sales meeting recap: " ++ company else jsTrim cap),
          jsTrim (String.intercalate "\n" (splitLines email).tail))
       | none => ("Sales meeting recap: " ++ company, email)) ∧
    computeSubjectBody "Subject: Q3 Recap\nBody text here" company =
      ("Q3 Recap", "Body text here") := by
  constructor
  · by_cases he : email = ""
    · subst he
      rfl
    · simp only [computeSubjectBody, he, ne_eq, not_false_iff, if_true]
      cases hm : matchSubjectLine ((splitLines email).headD "") with
      | none => simp [hm]
      | some cap =>
        simp only [hm]
        by_cases hs : jsTrim cap = "" <;> simp [hs]
  · rfl

/-- **C6.** With `OPENAI_API_KEY` unset, `requestOpenAIChat` performs no
outbound fetch and returns the empty object (no content), the drafting
step yields the empty string, and for every schema-valid payload the tool
response content is exactly the literal `"saved"`. -/
theorem missing_openai_key_yields_saved (cfg : Config) (raw : RawPayload)
    (comp : CompletionOutcome) (emailFails : Bool) (input : RawPayload)
    (hkey : cfg.openaiApiKey = none)
    (hok : parseSaveMeeting raw = Except.ok input) :
    requestOpenAIChat cfg comp = (false, Except.ok none) ∧
    draftStakeholderEmailFromJson cfg comp = (false, "") ∧
    (saveMeetingTool cfg raw comp emailFails).completionRequested = false ∧
    (saveMeetingTool cfg raw comp emailFails).result = Except.ok "saved" := by
  have hreq : requestOpenAIChat cfg comp = (false, Except.ok none) := by
    simp [requestOpenAIChat, hkey]
  have hdraft : draftStakeholderEmailFromJson cfg comp = (false, "") := by
    simp [draftStakeholderEmailFromJson, hreq]
  cases hf : cfg.sendgridFrom <;>
    simp [saveMeetingTool, hok, hf, hdraft, hreq]

/-- Witness for C6 with no configuration at all. -/
theorem missing_openai_key_yields_saved_witness :
    requestOpenAIChat demoCfgUnset demoComp = (false, Except.ok none) ∧
    draftStakeholderEmailFromJson demoCfgUnset demoComp = (false, "") ∧
    (saveMeetingTool demoCfgUnset demoPayload demoComp false).completionRequested = false ∧
    (saveMeetingTool demoCfgUnset demoPayload demoComp false).result = Except.ok "saved" :=
  missing_openai_key_yields_saved demoCfgUnset demoPayload demoComp false demoPayload
    rfl rfl

/-- **C7.** If the SendGrid credential or the sender address is unset, the
SendGrid fetch is never attempted; and whether or not an attempted send
fails, the failure stays inside the handler: the tool result is unchanged
and is always a success carrying whatever drafting produced (the draft, or
`"saved"` when drafting yielded the empty string). -/
theorem email_failures_contained (cfg : Config) (raw : RawPayload)
    (comp : CompletionOutcome) (emailFails : Bool) (input : RawPayload)
    (hok : parseSaveMeeting raw = Except.ok input) :
    ((cfg.sendgridApiKey = none ∨ cfg.sendgridFrom = none) →
      (saveMeetingTool cfg raw comp emailFails).emailFetch = none) ∧
    (saveMeetingTool cfg raw comp emailFails).result =
      (saveMeetingTool cfg raw comp false).result ∧
    (saveMeetingTool cfg raw comp emailFails).result =
      Except.ok (if (draftStakeholderEmailFromJson cfg comp).2 = "" then "saved"
                 else (draftStakeholderEmailFromJson cfg comp).2) := by
  refine ⟨fun hunset => ?_, ?_, ?_⟩
  · cases hf : cfg.sendgridFrom with
    | none => simp [saveMeetingTool, hok, hf]
    | some fromAddr =>
      have hkey : cfg.sendgridApiKey = none := by
        rcases hunset with h | h
        · exact h
        · rw [hf] at h
          exact absurd h (by simp)
      simp [saveMeetingTool, hok, hf, sendEmail, hkey]
  · cases hf : cfg.sendgridFrom <;> simp [saveMeetingTool, hok, hf]
  · cases hf : cfg.sendgridFrom <;> simp [saveMeetingTool, hok, hf]

/-- Witness for C7 with the sender set but the credential unset. -/
theorem email_failures_contained_witness :
    ((demoCfgNoKey.sendgridApiKey = none ∨ demoCfgNoKey.sendgridFrom = none) →
      (saveMeetingTool demoCfgNoKey demoPayload demoComp true).emailFetch = none) ∧
    (saveMeetingTool demoCfgNoKey demoPayload demoComp true).result =
      (saveMeetingTool demoCfgNoKey demoPayload demoComp false).result ∧
    (saveMeetingTool demoCfgNoKey demoPayload demoComp true).result =
      Except.ok (if (draftStakeholderEmailFromJson demoCfgNoKey demoComp).2 = "" then "saved"
                 else (draftStakeholderEmailFromJson demoCfgNoKey demoComp).2) :=
  email_failures_contained demoCfgNoKey demoPayload demoComp true demoPayload rfl

/-- **C8.** A payload with no `summary` field fails
`SaveMeetingInputSchema.parse` with an issue at path `summary`, and the
throw precedes every side effect: no OpenAI fetch and no SendGrid fetch
occur. -/
theorem missing_summary_rejected_before_side_effects (cfg : Config) (raw : RawPayload)
    (comp : CompletionOutcome) (emailFails : Bool)
    (hmissing : raw.summary = none) :
    (saveMeetingTool cfg raw comp emailFails).completionRequested = false ∧
    (saveMeetingTool cfg raw comp emailFails).emailFetch = none ∧
    ∃ issues, (saveMeetingTool cfg raw comp emailFails).result = Except.error issues ∧
      ("summary", "Required") ∈ issues := by
  have hmem : ("summary", "Required") ∈ validateSaveMeeting raw := by
    simp only [validateSaveMeeting, hmissing, checkRequiredString]
    simp [List.mem_append]
  cases hv : validateSaveMeeting raw with
  | nil =>
    rw [hv] at hmem
    exact absurd hmem (List.not_mem_nil _)
  | cons i rest =>
    have hparse : parseSaveMeeting raw = Except.error (i :: rest) := by
      simp [parseSaveMeeting, hv]
    refine ⟨by simp [saveMeetingTool, hparse], by simp [saveMeetingTool, hparse],
      i :: rest, by simp [saveMeetingTool, hparse], ?_⟩
    rw [← hv]
    exact hmem

/-- Witness for C8 at the summary-less payload. -/
theorem missing_summary_rejected_before_side_effects_witness :
    (saveMeetingTool demoCfg demoPayloadNoSummary demoComp false).completionRequested = false ∧
    (saveMeetingTool demoCfg demoPayloadNoSummary demoComp false).emailFetch = none ∧
    ∃ issues,
      (saveMeetingTool demoCfg demoPayloadNoSummary demoComp false).result =
        Except.error issues ∧
      ("summary", "Required") ∈ issues :=
  missing_summary_rejected_before_side_effects demoCfg demoPayloadNoSummary demoComp false rfl

/-- **C9.** Whenever the handler performs the SendGrid fetch, the recipient
is the hardcoded literal `akbargate@gmail.com`, whatever the payload,
configuration, and provider outcomes are. -/
theorem email_recipient_hardcoded (cfg : Config) (raw : RawPayload)
    (comp : CompletionOutcome) (emailFails : Bool) (args : SendEmailArgs)
    (hsent : (saveMeetingTool cfg raw comp emailFails).emailFetch = some args) :
    args.toEmail = HARDCODED_TO_EMAIL ∧ args.toEmail = "akbargate@gmail.com" := by
  cases hp : parseSaveMeeting raw with
  | error issues => simp [saveMeetingTool, hp] at hsent
  | ok input =>
    cases hf : cfg.sendgridFrom with
    | none => simp [saveMeetingTool, hp, hf] at hsent
    | some fromAddr =>
      by_cases hs : (sendEmail cfg emailFails).1 = true
      · simp only [saveMeetingTool, hp, hf, hs, if_true] at hsent
        obtain rfl := Option.some.inj hsent
        exact ⟨rfl, rfl⟩
      · simp [saveMeetingTool, hp, hf, hs] at hsent

/-- Witness for C9: a fully configured run that does send. -/
theorem email_recipient_hardcoded_witness :
    (⟨"akbargate@gmail.com", "rep@acme.example", "Hi", "Body"⟩ : SendEmailArgs).toEmail
        = HARDCODED_TO_EMAIL ∧
    (⟨"akbargate@gmail.com", "rep@acme.example", "Hi", "Body"⟩ : SendEmailArgs).toEmail
        = "akbargate@gmail.com" :=
  email_recipient_hardcoded demoCfg demoPayload demoComp false
    ⟨"akbargate@gmail.com", "rep@acme.example", "Hi", "Body"⟩ (by decide)

/-- **C10.** For every schema-valid payload the tool response text is the
raw draft — including any leading `Subject:` line — or the literal
`"saved"` when the draft is empty; the subject/body split only shapes the
outbound email, whose text is the post-split body, falling back to
`"saved"` when that body is empty even though the response still carries
the full draft. -/
theorem response_carries_raw_draft (cfg : Config) (raw : RawPayload)
    (comp : CompletionOutcome) (emailFails : Bool) (input : RawPayload)
    (hok : parseSaveMeeting raw = Except.ok input) :
    (saveMeetingTool cfg raw comp emailFails).result =
      Except.ok (if (draftStakeholderEmailFromJson cfg comp).2 = "" then "saved"
        else (draftStakeholderEmailFromJson cfg comp).2) ∧
    (∀ args, (saveMeetingTool cfg raw comp emailFails).emailFetch = some args →
      args.text =
        (if (computeSubjectBody (draftStakeholderEmailFromJson cfg comp).2
              (input.company.getD "")).2 = ""
         then "saved"
         else (computeSubjectBody (draftStakeholderEmailFromJson cfg comp).2
              (input.company.getD "")).2)) := by
  constructor
  · cases hf : cfg.sendgridFrom <;> simp [saveMeetingTool, hok, hf]
  · intro args hsent
    cases hf : cfg.sendgridFrom with
    | none => simp [saveMeetingTool, hok, hf] at hsent
    | some fromAddr =>
      by_cases hs : (sendEmail cfg emailFails).1 = true
      · simp only [saveMeetingTool, hok, hf, hs, if_true] at hsent
        obtain rfl := Option.some.inj hsent
        rfl
      · simp [saveMeetingTool, hok, hf, hs] at hsent

/-- Witness for C10: a draft that is only a `Subject:` line — the response
carries the full draft while the emailed text falls back to `"saved"`. -/
theorem response_carries_raw_draft_witness :
    (saveMeetingTool demoCfg demoPayload demoCompSubjectOnly false).result =
      Except.ok (if (draftStakeholderEmailFromJson demoCfg demoCompSubjectOnly).2 = ""
        then "saved"
        else (draftStakeholderEmailFromJson demoCfg demoCompSubjectOnly).2) ∧
    (∀ args,
      (saveMeetingTool demoCfg demoPayload demoCompSubjectOnly false).emailFetch = some args →
      args.text =
        (if (computeSubjectBody (draftStakeholderEmailFromJson demoCfg demoCompSubjectOnly).2
              (demoPayload.company.getD "")).2 = ""
         then "saved"
         else (computeSubjectBody (draftStakeholderEmailFromJson demoCfg demoCompSubjectOnly).2
              (demoPayload.company.getD "")).2)) :=
  response_carries_raw_draft demoCfg demoPayload demoCompSubjectOnly false demoPayload rfl

end SalesAgent
